import Mathlib

/-!
Verification of the `image-transition` controller (`src/shader.ts`).

The controller state machine, the texture resource, and the fragment-shader
algorithm are embedded shallowly: JS numbers are modelled as rationals where
the code only adds, multiplies, divides and compares them, and as reals where
trigonometry is involved (the easing curve and the shader).  Each tick of the
`requestAnimationFrame` loop is modelled as an explicit state transition that
also reports the observable effects of the tick: the eased-progress uniform
pushed to the GPU, the number of `transitionEnd` dispatches, and whether the
tick re-scheduled itself.
-/

/-- Function `clamp` from `shader.ts`: `Math.min(Math.max(num, min), max)`. -/
def clamp (num lo hi : ℚ) : ℚ := min (max num lo) hi

/-- Function `easeInOutSine` from `shader.ts`: `-(Math.cos(Math.PI * x) - 1) / 2`. -/
noncomputable def easeInOutSine (x : ℝ) : ℝ := -(Real.cos (Real.pi * x) - 1) / 2

/-- An image-like source, as far as the aspect computation in
`ImageTransition._updateAspect` can observe it: an `HTMLImageElement` exposes
`naturalWidth`/`naturalHeight`, an `HTMLCanvasElement` exposes
`width`/`height`, and anything else (e.g. a video element) falls through to
aspect `1`. -/
inductive MediaSource
  | imageEl (naturalWidth naturalHeight : ℚ)
  | canvasEl (width height : ℚ)
  | videoEl (width height : ℚ)
  deriving DecidableEq

/-- The observable state of an `ImageTransition` controller: the public
`duration`, the private `_progress`, `_isEntering`, `_isLeaving`,
`_hasUpdated` and `_destroyed` fields, the canvas dimensions, and the two
primary texture sources. -/
structure ImageTransition where
  duration : ℚ
  progress : ℚ
  isEntering : Bool
  isLeaving : Bool
  hasUpdated : Bool
  destroyed : Bool
  canvasWidth : ℚ
  canvasHeight : ℚ
  imageFrom : Option MediaSource
  imageTo : Option MediaSource
  deriving DecidableEq

namespace ImageTransition

/-- State established by the constructor: `_progress = 0`,
`_isEntering = _isLeaving = false`, `_hasUpdated = true`,
`_destroyed = false`. -/
def initial (duration canvasWidth canvasHeight : ℚ)
    (sourceFrom sourceTo : Option MediaSource) : ImageTransition :=
  ⟨duration, 0, false, false, true, false, canvasWidth, canvasHeight,
    sourceFrom, sourceTo⟩

/-- Result of `render()`: the new state and, when a draw was issued, the raw
progress value whose `easeInOutSine` image was pushed as the `progress`
uniform (`none` when the destroyed guard returned early, i.e. no draw). -/
structure RenderOut where
  state : ImageTransition
  pushedProgress : Option ℚ
  deriving DecidableEq

/-- Method `render()`: early-out when destroyed; otherwise push
`easeInOutSine(_progress)`, draw, and clear `_hasUpdated` when
`_progress === 1`. -/
def render (s : ImageTransition) : RenderOut :=
  if s.destroyed then ⟨s, Option.none⟩
  else if s.progress = 1 then ⟨{ s with hasUpdated := false }, some s.progress⟩
  else ⟨s, some s.progress⟩

/-- Result of one `tick` of the animation loop: the new state, the pushed
uniform (if any draw happened), the number of `transitionEnd` dispatches, and
whether `requestAnimationFrame(tick)` was invoked again. -/
structure TickOut where
  state : ImageTransition
  pushedProgress : Option ℚ
  events : Nat
  rescheduled : Bool
  deriving DecidableEq

/-- The `tick` closure created by `enter()`, run at absolute time `now` with
the captured `startTime` and `startElapsedTime`.  Note that
`requestAnimationFrame(tick)` is called unconditionally at the end of the
body, also when progress has just reached `1`. -/
def enterTick (s : ImageTransition) (startTime startElapsedTime now : ℚ) :
    TickOut :=
  if s.destroyed then ⟨s, Option.none, 0, false⟩
  else if ! s.isEntering then ⟨s, Option.none, 0, false⟩
  else
    let elapsedTime := now - startTime + startElapsedTime
    let s1 := { s with progress := clamp (elapsedTime / s.duration) 0 1 }
    let r := render s1
    if s1.progress = 1 then
      ⟨{ r.state with isEntering := false }, r.pushedProgress, 1, true⟩
    else
      ⟨r.state, r.pushedProgress, 0, true⟩

/-- The `tick` closure created by `leave()`. -/
def leaveTick (s : ImageTransition) (startTime startElapsedTime now : ℚ) :
    TickOut :=
  if s.destroyed then ⟨s, Option.none, 0, false⟩
  else if ! s.isLeaving then ⟨s, Option.none, 0, false⟩
  else
    let elapsedTime := now - startTime + startElapsedTime
    let s1 := { s with progress := clamp (1 - elapsedTime / s.duration) 0 1 }
    let r := render s1
    if s1.progress = 0 then
      ⟨{ r.state with isLeaving := false }, r.pushedProgress, 1, true⟩
    else
      ⟨r.state, r.pushedProgress, 0, true⟩

/-- Result of `enter()` / `leave()`: the state after the call (including the
synchronous first tick), whether an animation was started, the captured
`startTime`/`startElapsedTime`, and the first tick's observable effects. -/
structure StartOut where
  state : ImageTransition
  started : Bool
  startTime : ℚ
  startElapsedTime : ℚ
  pushedProgress : Option ℚ
  events : Nat
  rescheduled : Bool
  deriving DecidableEq

/-- Method `enter()` called at absolute time `now`: no-op when already entering or
`_progress === 1`; otherwise set the flags, capture
`startElapsedTime = duration * progress`, and run the first tick
synchronously. -/
def enter (s : ImageTransition) (now : ℚ) : StartOut :=
  if s.isEntering then ⟨s, false, 0, 0, Option.none, 0, false⟩
  else if s.progress = 1 then ⟨s, false, 0, 0, Option.none, 0, false⟩
  else
    let s1 := { s with isEntering := true, isLeaving := false }
    let startElapsedTime := s.duration * s.progress
    let t := enterTick s1 now startElapsedTime now
    ⟨t.state, true, now, startElapsedTime, t.pushedProgress, t.events,
      t.rescheduled⟩

/-- Method `leave()` called at absolute time `now`: no-op when already leaving or
`_progress === 0`; otherwise set the flags, capture
`startElapsedTime = duration * (1 - progress)`, and run the first tick
synchronously. -/
def leave (s : ImageTransition) (now : ℚ) : StartOut :=
  if s.isLeaving then ⟨s, false, 0, 0, Option.none, 0, false⟩
  else if s.progress = 0 then ⟨s, false, 0, 0, Option.none, 0, false⟩
  else
    let s1 := { s with isLeaving := true, isEntering := false }
    let startElapsedTime := s.duration * (1 - s.progress)
    let t := leaveTick s1 now startElapsedTime now
    ⟨t.state, true, now, startElapsedTime, t.pushedProgress, t.events,
      t.rescheduled⟩

/-- Method `stop()`: the new state and the number of `transitionEnd` dispatches. -/
def stop (s : ImageTransition) : ImageTransition × Nat :=
  if s.isEntering = false ∧ s.isLeaving = false then (s, 0)
  else ({ s with isEntering := false, isLeaving := false }, 1)

/-- Method `reset()`: `stop()`, then `_progress = 0`, then one `render()`.  Returns
the new state, the dispatch count, and the uniform pushed by the render. -/
def reset (s : ImageTransition) : ImageTransition × Nat × Option ℚ :=
  let p := stop s
  let s2 := { p.1 with progress := 0 }
  let r := render s2
  (r.state, p.2, r.pushedProgress)

/-- Method `_onUpdate()`: schedule at most one deferred re-render, and only when
idle.  Returns the state and whether a deferred render was scheduled. -/
def onUpdate (s : ImageTransition) : ImageTransition × Bool :=
  if s.isEntering = true ∨ s.isLeaving = true then (s, false)
  else if s.hasUpdated then (s, false)
  else ({ s with hasUpdated := true }, true)

/-- Method `setSize(w, h)`: no-op when the canvas already has those dimensions;
otherwise resize, update the viewport and recompute the aspect (both GPU
calls).  The boolean reports whether any GPU call was issued. -/
def setSize (s : ImageTransition) (w h : ℚ) : ImageTransition × Bool :=
  if s.canvasWidth = w ∧ s.canvasHeight = h then (s, false)
  else
    let s1 := { s with canvasWidth := w, canvasHeight := h }
    ((onUpdate s1).1, true)

/-- Method `setFromImage(source)`: delegates to `Texture.setImage`, which uploads to
the GPU and fires `updated`, which in turn runs `_updateTexture` /
`_updateAspect` / `_onUpdate`.  The boolean reports that GPU calls were
issued. -/
def setFromImage (s : ImageTransition) (src : Option MediaSource) :
    ImageTransition × Bool :=
  ((onUpdate { s with imageFrom := src }).1, true)

/-- Method `setToImage(source)`: symmetric to `setFromImage`. -/
def setToImage (s : ImageTransition) (src : Option MediaSource) :
    ImageTransition × Bool :=
  ((onUpdate { s with imageTo := src }).1, true)

/-- Method `destroy(removeElement)`: set `_destroyed`, clear both mode flags, and
(when `removeElement`) call `setSize(1, 1)`. -/
def destroy (s : ImageTransition) (removeElement : Bool) : ImageTransition :=
  let s1 := { s with destroyed := true, isEntering := false, isLeaving := false }
  if removeElement then (setSize s1 1 1).1 else s1

/-- The media aspect computed in `_updateAspect` from the chosen source:
`naturalWidth / naturalHeight` for an image element, `width / height` for a
canvas element, `1` otherwise. -/
def mediaAspectOf : Option MediaSource → ℚ
  | some (MediaSource.imageEl w h) => w / h
  | some (MediaSource.canvasEl w h) => w / h
  | some (MediaSource.videoEl _ _) => 1
  | Option.none => 1

/-- Method `_updateAspect()`: the pair pushed to the `uvScale` uniform. -/
def updateAspectUvScale (s : ImageTransition) : ℚ × ℚ :=
  let canvasAspect := s.canvasWidth / s.canvasHeight
  let image : Option MediaSource :=
    match s.imageFrom with
    | some i => some i
    | Option.none => s.imageTo
  let aspect := mediaAspectOf image / canvasAspect
  if aspect < 1 then (1, aspect) else (1 / aspect, 1)

/-- The state invariant claimed by the spec: progress stays in `[0, 1]` and
the Entering/Leaving flags are never both set. -/
def Inv (s : ImageTransition) : Prop :=
  0 ≤ s.progress ∧ s.progress ≤ 1 ∧
    ¬(s.isEntering = true ∧ s.isLeaving = true)

instance (s : ImageTransition) : Decidable (Inv s) := by
  unfold Inv
  infer_instance

end ImageTransition

/-- A texture source as far as `Texture` can observe it: an image element
with its `naturalWidth`/`naturalHeight`, a canvas element, or a video
element. -/
inductive TexSource
  | imageEl (naturalWidth naturalHeight : ℕ)
  | canvasEl (width height : ℕ)
  | videoEl (width height : ℕ)
  deriving DecidableEq

/-- The pixel data currently held by a GPU texture handle: nothing yet
(a freshly created handle), the raw 1×1 opaque-black pixel uploaded by the
`Texture` constructor, the module-level 2×2 `defaultImage` canvas, or an
application-supplied source. -/
inductive GpuPixels
  | empty
  | black1x1
  | defaultCanvas2x2
  | uploaded (src : TexSource)
  deriving DecidableEq

/-- The observable state of a `Texture`: the current `image` source, the
pixel data held by its GPU handle, whether a one-shot `load` listener is
registered, and how many `updated` notifications have been emitted. -/
structure Texture where
  image : Option TexSource
  gpu : GpuPixels
  pendingOnLoad : Bool
  updatedEvents : Nat
  deriving DecidableEq

namespace Texture

/-- The `isLoaded` getter: `false` without a source; a canvas or video source
is always loaded; an image source is loaded iff `naturalWidth !== 0`. -/
def isLoaded (t : Texture) : Bool :=
  match t.image with
  | Option.none => false
  | some (TexSource.canvasEl _ _) => true
  | some (TexSource.videoEl _ _) => true
  | some (TexSource.imageEl w _) => decide (w ≠ 0)

/-- Method `setImage(image?)`: reassign the source; upload the source itself when it
is loaded and the 2×2 `defaultImage` canvas otherwise (registering a deferred
`load` continuation in the not-yet-loaded case, which is what `onLoad` does
there); always emit `updated` exactly once. -/
def setImage (t : Texture) (img : Option TexSource) : Texture :=
  let t1 := { t with image := img }
  let t2 :=
    match img with
    | Option.none => { t1 with gpu := GpuPixels.defaultCanvas2x2 }
    | some s =>
      if isLoaded t1 then { t1 with gpu := GpuPixels.uploaded s }
      else { t1 with gpu := GpuPixels.defaultCanvas2x2, pendingOnLoad := true }
  { t2 with updatedEvents := t2.updatedEvents + 1 }

/-- Method `onLoad()`: nothing without a source; upload immediately (via `setImage`)
when the source is already loaded; otherwise register the one-shot `load`
listener. -/
def onLoad (t : Texture) : Texture :=
  match t.image with
  | Option.none => t
  | some _ =>
    if isLoaded t then setImage t t.image
    else { t with pendingOnLoad := true }

/-- The `Texture` constructor: store the source, create the handle, upload a
raw 1×1 opaque-black pixel, then `onLoad()` when a source was given and
`setImage()` otherwise. -/
def construct (img : Option TexSource) : Texture :=
  let t0 : Texture := ⟨img, GpuPixels.black1x1, false, 0⟩
  match img with
  | some _ => onLoad t0
  | Option.none => setImage t0 Option.none

end Texture

noncomputable section

/-- A GLSL `vec2`. -/
structure Vec2 where
  x : ℝ
  y : ℝ

/-- A GLSL `vec4`, with its components named after the color channels. -/
structure Vec4 where
  r : ℝ
  g : ℝ
  b : ℝ
  a : ℝ

/-- Constant `defaultAngle` from the fragment shader: `3.14159265 / 4.`. -/
def defaultAngle : ℝ := 3.14159265 / 4

/-- Function `rotationMatrix(angle)` applied to a vector; GLSL `mat2(c, -s, s, c)` is
column-major, so the product is `(c x + s y, -s x + c y)`. -/
def rotationMatrix (angle : ℝ) (v : Vec2) : Vec2 :=
  let s := Real.sin angle
  let c := Real.cos angle
  ⟨c * v.x + s * v.y, -s * v.x + c * v.y⟩

/-- GLSL `mix(x, y, a)` on `vec4`: componentwise `x * (1 - a) + y * a`. -/
def mix4 (x y : Vec4) (a : ℝ) : Vec4 :=
  ⟨x.r * (1 - a) + y.r * a, x.g * (1 - a) + y.g * a,
    x.b * (1 - a) + y.b * a, x.a * (1 - a) + y.a * a⟩

/-- The fragment-shader `main` of `FRAGMENT_SHADER_SOURCE`, with the three
samplers modelled as functions from coordinates to colors. -/
def fragmentMain (intensity direction progress : ℝ)
    (disableFromImage disableToImage : ℝ)
    (textureFrom textureTo textureDisplacement : Vec2 → Vec4)
    (vUv : Vec2) : Vec4 :=
  let dtex := textureDisplacement vUv
  let displacement := rotationMatrix (defaultAngle + direction) ⟨dtex.r, dtex.g⟩
  let distortedPosition1 : Vec2 :=
    ⟨vUv.x + displacement.x * intensity * progress,
      vUv.y + displacement.y * intensity * progress⟩
  let distortedPosition2 : Vec2 :=
    ⟨vUv.x + displacement.x * intensity * (1 - progress),
      vUv.y + displacement.y * intensity * (1 - progress)⟩
  let fromColor := textureFrom distortedPosition1
  let toColor := textureTo distortedPosition2
  if disableFromImage = 1 then
    if distortedPosition2.x < 0 ∨ distortedPosition2.x > 1 ∨
        distortedPosition2.y < 0 ∨ distortedPosition2.y > 1 then
      ⟨0, 0, 0, 0⟩
    else
      ⟨toColor.r, toColor.g, toColor.b, toColor.a * progress⟩
  else if disableToImage = 1 then
    if distortedPosition1.x < 0 ∨ distortedPosition1.x > 1 ∨
        distortedPosition1.y < 0 ∨ distortedPosition1.y > 1 then
      ⟨0, 0, 0, 0⟩
    else
      ⟨fromColor.r, fromColor.g, fromColor.b, fromColor.a * (1 - progress)⟩
  else
    mix4 fromColor toColor progress

/-- Linear interpolation of two colors as the spec words it: start at the
first color and move toward the second by `t`. -/
def lerp4 (c1 c2 : Vec4) (t : ℝ) : Vec4 :=
  ⟨c1.r + (c2.r - c1.r) * t, c1.g + (c2.g - c1.g) * t,
    c1.b + (c2.b - c1.b) * t, c1.a + (c2.a - c1.a) * t⟩

/-- The fragment stage as described by the spec, parameterized by the
rotation bias angle (the claim reads the bias as 45°, i.e. `π/4`; the shader
uses its `defaultAngle` constant): rotate the displacement sample's red/green
channels by `biasAngle + direction`, form
`pos1 = uv + offset * intensity * progress` and
`pos2 = uv + offset * intensity * (1 - progress)`, and output per the
three absence cases. -/
def specFragment (biasAngle : ℝ) (intensity direction progress : ℝ)
    (disableFromImage disableToImage : ℝ)
    (textureFrom textureTo textureDisplacement : Vec2 → Vec4)
    (vUv : Vec2) : Vec4 :=
  let dtex := textureDisplacement vUv
  let offset := rotationMatrix (biasAngle + direction) ⟨dtex.r, dtex.g⟩
  let pos1 : Vec2 :=
    ⟨vUv.x + offset.x * (intensity * progress),
      vUv.y + offset.y * (intensity * progress)⟩
  let pos2 : Vec2 :=
    ⟨vUv.x + offset.x * (intensity * (1 - progress)),
      vUv.y + offset.y * (intensity * (1 - progress))⟩
  if disableFromImage = 1 then
    if 0 ≤ pos2.x ∧ pos2.x ≤ 1 ∧ 0 ≤ pos2.y ∧ pos2.y ≤ 1 then
      let c := textureTo pos2
      ⟨c.r, c.g, c.b, c.a * progress⟩
    else ⟨0, 0, 0, 0⟩
  else if disableToImage = 1 then
    if 0 ≤ pos1.x ∧ pos1.x ≤ 1 ∧ 0 ≤ pos1.y ∧ pos1.y ≤ 1 then
      let c := textureFrom pos1
      ⟨c.r, c.g, c.b, c.a * (1 - progress)⟩
    else ⟨0, 0, 0, 0⟩
  else
    lerp4 (textureFrom pos1) (textureTo pos2) progress

end

/-- The spec-side preference rule for the aspect source: the "from" source
when present, else the "to" source. -/
def specPreferredSource (f t : Option MediaSource) : Option MediaSource :=
  match f with
  | some i => some i
  | Option.none => t

/-- The spec-side UV-scale rule: with `aspect = mediaAspect / canvasAspect`,
scale the vertical axis by `aspect` when `aspect < 1`, else the horizontal
axis by `1 / aspect`. -/
def specUvScaleOf (mediaAspect canvasAspect : ℚ) : ℚ × ℚ :=
  if mediaAspect / canvasAspect < 1 then (1, mediaAspect / canvasAspect)
  else (1 / (mediaAspect / canvasAspect), 1)

/-- A concrete idle controller, `duration = 2000`, used as witness input. -/
def idleSample : ImageTransition :=
  ⟨2000, 0, false, false, true, false, 1, 1, Option.none, Option.none⟩

/-- A concrete controller in the middle of an `enter()` animation. -/
def enteringSample : ImageTransition :=
  ⟨2000, 1/2, true, false, true, false, 1, 1, Option.none, Option.none⟩

/-- A concrete controller in the middle of a `leave()` animation. -/
def leavingSample : ImageTransition :=
  ⟨2000, 1/2, false, true, true, false, 1, 1, Option.none, Option.none⟩

/-- A concrete controller after `destroy()`, with progress frozen at `1/2`
and a 3×3 canvas. -/
def destroyedSample : ImageTransition :=
  ⟨2000, 1/2, false, false, true, true, 3, 3, Option.none, Option.none⟩

/-- A concrete controller whose "from" source is a 16×9 image on a square
canvas. -/
def aspectSample : ImageTransition :=
  ⟨2000, 0, false, false, true, false, 1, 1,
    some (MediaSource.imageEl 16 9), Option.none⟩

/-- A concrete idle controller whose transition has completed
(`progress = 1`). -/
def doneSample : ImageTransition :=
  ⟨2000, 1, false, false, true, false, 1, 1, Option.none, Option.none⟩

/-- Value `clamp x 0 1` is nonnegative. -/
theorem clamp_nonneg (x : ℚ) : 0 ≤ clamp x 0 1 :=
  le_min (le_max_right x 0) zero_le_one

/-- Value `clamp x 0 1` is at most one. -/
theorem clamp_le_one (x : ℚ) : clamp x 0 1 ≤ 1 :=
  min_le_right _ _

/-- Function `clamp` fixes values already inside the interval. -/
theorem clamp_eq_self {p : ℚ} (h0 : 0 ≤ p) (h1 : p ≤ 1) : clamp p 0 1 = p := by
  unfold clamp
  rw [max_eq_left h0, min_eq_left h1]

/-- Value `clamp x 0 1` is bounded by any bound of `x` that is itself
nonnegative. -/
theorem clamp_le_of_le {q p : ℚ} (hq : q ≤ p) (hp : 0 ≤ p) :
    clamp q 0 1 ≤ p :=
  le_trans (min_le_left _ _) (max_le hq hp)

/-- Value `clamp x 0 1` is above any lower bound of `x` that is itself at most
one. -/
theorem le_clamp_of_le {q p : ℚ} (hq : p ≤ q) (hp : p ≤ 1) :
    p ≤ clamp q 0 1 :=
  le_min (le_trans hq (le_max_left _ _)) hp

/-- Claim C5: for every aspect recomputation, the media aspect is taken from
the "from" source when present, else the "to" source, and with
`aspect = mediaAspect / canvasAspect` the UV scale uniform is `(1, aspect)`
when `aspect < 1` and `(1/aspect, 1)` otherwise; in particular a 16/9 media
source on a square canvas yields UV scale `(9/16, 1)`. -/
theorem claim_C5_aspect :
    (∀ s : ImageTransition,
      ImageTransition.updateAspectUvScale s =
        specUvScaleOf
          (ImageTransition.mediaAspectOf
            (specPreferredSource s.imageFrom s.imageTo))
          (s.canvasWidth / s.canvasHeight)) ∧
    ImageTransition.updateAspectUvScale aspectSample = (9/16, 1) := by
  constructor
  · intro s
    cases h : s.imageFrom <;>
      simp [ImageTransition.updateAspectUvScale, specUvScaleOf,
        specPreferredSource, h]
  · norm_num [aspectSample, ImageTransition.updateAspectUvScale,
      ImageTransition.mediaAspectOf]

/-- Claim C6: when Entering or Leaving is active, `stop()` clears both mode
flags, fires exactly one `transitionEnd`, and changes nothing else; when
neither is active it is a no-op and fires nothing. -/
theorem claim_C6_stop (s : ImageTransition) :
    ((s.isEntering = true ∨ s.isLeaving = true) →
      ImageTransition.stop s =
        ({ s with isEntering := false, isLeaving := false }, 1)) ∧
    (s.isEntering = false → s.isLeaving = false →
      ImageTransition.stop s = (s, 0)) := by
  constructor
  · intro h
    unfold ImageTransition.stop
    rw [if_neg]
    rintro ⟨h1, h2⟩
    rcases h with h | h
    · rw [h1] at h
      exact Bool.false_ne_true h
    · rw [h2] at h
      exact Bool.false_ne_true h
  · intro h1 h2
    unfold ImageTransition.stop
    rw [if_pos ⟨h1, h2⟩]

/-- Witness for claim C6 at a concrete active state. -/
theorem claim_C6_witness :
    (enteringSample.isEntering = true ∨ enteringSample.isLeaving = true) ∧
    ImageTransition.stop enteringSample =
      ({ enteringSample with isEntering := false, isLeaving := false }, 1) :=
  ⟨Or.inl rfl, (claim_C6_stop enteringSample).1 (Or.inl rfl)⟩

/-- Claim C7: `reset()` behaves as `stop()` followed by `progress = 0` and
one immediate render; afterwards progress is `0`, both flags are cleared, and
`transitionEnd` fired exactly once iff a mode was active beforehand. -/
theorem claim_C7_reset (s : ImageTransition) :
    (ImageTransition.reset s).1.progress = 0 ∧
    (ImageTransition.reset s).1.isEntering = false ∧
    (ImageTransition.reset s).1.isLeaving = false ∧
    (ImageTransition.reset s).2.1 =
      (if s.isEntering = true ∨ s.isLeaving = true then 1 else 0) ∧
    (ImageTransition.reset s).1 =
      (ImageTransition.render
        { (ImageTransition.stop s).1 with progress := 0 }).state ∧
    (s.destroyed = false → (ImageTransition.reset s).2.2 = some 0) := by
  obtain ⟨dur, p, ie, il, hu, de, cw, ch, f, t⟩ := s
  cases ie <;> cases il <;> cases de <;>
    simp [ImageTransition.reset, ImageTransition.stop, ImageTransition.render]

/-- Witness for claim C7 at a concrete active, non-destroyed state. -/
theorem claim_C7_witness :
    enteringSample.destroyed = false ∧
    (ImageTransition.reset enteringSample).1.progress = 0 ∧
    (ImageTransition.reset enteringSample).2.1 = 1 ∧
    (ImageTransition.reset enteringSample).2.2 = some 0 := by
  refine ⟨rfl, (claim_C7_reset enteringSample).1, ?_,
    (claim_C7_reset enteringSample).2.2.2.2.2 rfl⟩
  have h := (claim_C7_reset enteringSample).2.2.2.1
  simpa [enteringSample] using h

/-- Claim C8: `enter()` is a no-op when already Entering or when
`progress == 1`: state unchanged, no tick loop started, no notification. -/
theorem claim_C8_enter_noop (s : ImageTransition) (now : ℚ)
    (h : s.isEntering = true ∨ s.progress = 1) :
    ImageTransition.enter s now = ⟨s, false, 0, 0, Option.none, 0, false⟩ := by
  cases hie : s.isEntering
  · rcases h with h | h
    · rw [hie] at h
      exact absurd h Bool.false_ne_true
    · simp [ImageTransition.enter, hie, h]
  · simp [ImageTransition.enter, hie]

/-- Claim C2: calling `leave()` during an active Entering animation at
progress `p` strictly between 0 and 1 leaves progress equal to `p`
immediately after the call (including the synchronous first tick), captures
`startElapsedTime = duration * (1 - p)`, flips the mode flags, fires
nothing, and makes all future ticks move progress downward; symmetrically,
`enter()` during an active Leaving animation preserves `p`, captures
`startElapsedTime = duration * p`, and future ticks move progress upward. -/
theorem claim_C2_switch :
    (∀ (s : ImageTransition) (now now2 : ℚ),
      s.destroyed = false → s.isEntering = true → s.isLeaving = false →
      0 < s.progress → s.progress < 1 → 0 < s.duration → now ≤ now2 →
      (ImageTransition.leave s now).started = true ∧
      (ImageTransition.leave s now).state.progress = s.progress ∧
      (ImageTransition.leave s now).startElapsedTime =
        s.duration * (1 - s.progress) ∧
      (ImageTransition.leave s now).state.isLeaving = true ∧
      (ImageTransition.leave s now).state.isEntering = false ∧
      (ImageTransition.leave s now).events = 0 ∧
      (ImageTransition.leaveTick (ImageTransition.leave s now).state now
        (s.duration * (1 - s.progress)) now2).state.progress ≤
        s.progress) ∧
    (∀ (s : ImageTransition) (now now2 : ℚ),
      s.destroyed = false → s.isLeaving = true → s.isEntering = false →
      0 < s.progress → s.progress < 1 → 0 < s.duration → now ≤ now2 →
      (ImageTransition.enter s now).started = true ∧
      (ImageTransition.enter s now).state.progress = s.progress ∧
      (ImageTransition.enter s now).startElapsedTime =
        s.duration * s.progress ∧
      (ImageTransition.enter s now).state.isEntering = true ∧
      (ImageTransition.enter s now).state.isLeaving = false ∧
      (ImageTransition.enter s now).events = 0 ∧
      s.progress ≤
        (ImageTransition.enterTick (ImageTransition.enter s now).state now
          (s.duration * s.progress) now2).state.progress) := by
  constructor
  · rintro ⟨dur, p, ie, il, hu, de, cw, ch, f, t⟩ now now2 hde hie hil hp0 hp1
      hdur hnn
    simp only at hde hie hil hp0 hp1 hdur
    subst hde hie hil
    have hdne : dur ≠ 0 := ne_of_gt hdur
    have hkey : clamp (1 - dur * (1 - p) / dur) 0 1 = p := by
      rw [mul_div_cancel_left₀ _ hdne, show (1 : ℚ) - (1 - p) = p by ring]
      exact clamp_eq_self hp0.le hp1.le
    have hq : 1 - (now2 - now + dur * (1 - p)) / dur ≤ p := by
      rw [add_div, mul_div_cancel_left₀ _ hdne]
      have h2 : 0 ≤ (now2 - now) / dur :=
        div_nonneg (sub_nonneg.2 hnn) hdur.le
      linarith
    simp only [ImageTransition.leave, ImageTransition.leaveTick,
      ImageTransition.render, hp0.ne', hp1.ne, sub_self, zero_add, hkey,
      if_false, Bool.false_eq_true, if_true, not_false_eq_true, if_neg]
    simp [hp0.ne', hp1.ne, hkey]
    split_ifs <;>
      simpa using clamp_le_of_le hq hp0.le
  · rintro ⟨dur, p, ie, il, hu, de, cw, ch, f, t⟩ now now2 hde hil hie hp0 hp1
      hdur hnn
    simp only at hde hie hil hp0 hp1 hdur
    subst hde hie hil
    have hdne : dur ≠ 0 := ne_of_gt hdur
    have hkey : clamp (dur * p / dur) 0 1 = p := by
      rw [mul_div_cancel_left₀ _ hdne]
      exact clamp_eq_self hp0.le hp1.le
    have hq : p ≤ (now2 - now + dur * p) / dur := by
      rw [add_div, mul_div_cancel_left₀ _ hdne]
      have h2 : 0 ≤ (now2 - now) / dur :=
        div_nonneg (sub_nonneg.2 hnn) hdur.le
      linarith
    simp only [ImageTransition.enter, ImageTransition.enterTick,
      ImageTransition.render, hp0.ne', hp1.ne, sub_self, zero_add, hkey,
      if_false, Bool.false_eq_true, if_true, not_false_eq_true, if_neg]
    simp [hp0.ne', hp1.ne, hkey]
    split_ifs <;>
      simpa using le_clamp_of_le hq hp1.le

/-- A scheduled `enter()` tick that runs after destruction or after the
Entering flag has been cleared performs no work and does not reschedule. -/
theorem enterTick_noop (s : ImageTransition) (a b n : ℚ)
    (h : s.destroyed = true ∨ s.isEntering = false) :
    ImageTransition.enterTick s a b n = ⟨s, Option.none, 0, false⟩ := by
  rcases h with h | h
  · simp [ImageTransition.enterTick, h]
  · cases hd : s.destroyed <;> simp [ImageTransition.enterTick, h, hd]

/-- A scheduled `leave()` tick that runs after destruction or after the
Leaving flag has been cleared performs no work and does not reschedule. -/
theorem leaveTick_noop (s : ImageTransition) (a b n : ℚ)
    (h : s.destroyed = true ∨ s.isLeaving = false) :
    ImageTransition.leaveTick s a b n = ⟨s, Option.none, 0, false⟩ := by
  rcases h with h | h
  · simp [ImageTransition.leaveTick, h]
  · cases hd : s.destroyed <;> simp [ImageTransition.leaveTick, h, hd]

/-- Witness for claim C2 at concrete mid-animation states. -/
theorem claim_C2_witness :
    (enteringSample.destroyed = false ∧ 0 < enteringSample.progress ∧
      enteringSample.progress < 1 ∧ 0 < enteringSample.duration) ∧
    (ImageTransition.leave enteringSample 0).started = true ∧
    (ImageTransition.leave enteringSample 0).state.progress =
      enteringSample.progress ∧
    (ImageTransition.leaveTick (ImageTransition.leave enteringSample 0).state
      0 (enteringSample.duration * (1 - enteringSample.progress))
      500).state.progress ≤ enteringSample.progress ∧
    (ImageTransition.enter leavingSample 0).started = true ∧
    (ImageTransition.enter leavingSample 0).state.progress =
      leavingSample.progress := by
  have h1 := claim_C2_switch.1 enteringSample 0 500 rfl rfl rfl one_half_pos
    one_half_lt_one (by decide) (by decide)
  have h2 := claim_C2_switch.2 leavingSample 0 500 rfl rfl rfl one_half_pos
    one_half_lt_one (by decide) (by decide)
  exact ⟨⟨rfl, one_half_pos, one_half_lt_one, by decide⟩, h1.1, h1.2.1,
    h1.2.2.2.2.2.2, h2.1, h2.2.1⟩

/-- The `enter()` tick preserves the state invariant. -/
theorem inv_enterTick (s : ImageTransition) (a b n : ℚ)
    (h : ImageTransition.Inv s) :
    ImageTransition.Inv (ImageTransition.enterTick s a b n).state := by
  obtain ⟨dur, p, ie, il, hu, de, cw, ch, f, t⟩ := s
  obtain ⟨h0, h1, h2⟩ := h
  cases de <;> cases ie <;> cases il <;>
    simp_all [ImageTransition.enterTick, ImageTransition.render,
      ImageTransition.Inv] <;>
    split_ifs <;>
    simp_all [clamp_nonneg, clamp_le_one]

/-- The `leave()` tick preserves the state invariant. -/
theorem inv_leaveTick (s : ImageTransition) (a b n : ℚ)
    (h : ImageTransition.Inv s) :
    ImageTransition.Inv (ImageTransition.leaveTick s a b n).state := by
  obtain ⟨dur, p, ie, il, hu, de, cw, ch, f, t⟩ := s
  obtain ⟨h0, h1, h2⟩ := h
  cases de <;> cases ie <;> cases il <;>
    simp_all [ImageTransition.leaveTick, ImageTransition.render,
      ImageTransition.Inv] <;>
    split_ifs <;>
    simp_all [clamp_nonneg, clamp_le_one]

/-- Method `_onUpdate` preserves the state invariant. -/
theorem inv_onUpdate (s : ImageTransition) (h : ImageTransition.Inv s) :
    ImageTransition.Inv (ImageTransition.onUpdate s).1 := by
  unfold ImageTransition.onUpdate
  split_ifs <;> exact ⟨h.1, h.2.1, h.2.2⟩

/-- Method `setSize` preserves the state invariant. -/
theorem inv_setSize (s : ImageTransition) (w h : ℚ)
    (hInv : ImageTransition.Inv s) :
    ImageTransition.Inv (ImageTransition.setSize s w h).1 := by
  unfold ImageTransition.setSize
  split_ifs with h1
  · exact hInv
  · exact inv_onUpdate _ ⟨hInv.1, hInv.2.1, hInv.2.2⟩

/-- Method `render` preserves the state invariant. -/
theorem inv_render (s : ImageTransition) (h : ImageTransition.Inv s) :
    ImageTransition.Inv (ImageTransition.render s).state := by
  unfold ImageTransition.render
  split_ifs <;> exact ⟨h.1, h.2.1, h.2.2⟩

/-- Method `stop` preserves the state invariant. -/
theorem inv_stop (s : ImageTransition) (h : ImageTransition.Inv s) :
    ImageTransition.Inv (ImageTransition.stop s).1 := by
  unfold ImageTransition.stop
  split_ifs
  · exact h
  · exact ⟨h.1, h.2.1, by simp⟩

/-- Claim C3: after construction, after every public operation, and after
every tick, progress lies in `[0, 1]` and at most one of the
Entering/Leaving flags is set. -/
theorem claim_C3_invariants :
    (∀ d w h f t, ImageTransition.Inv (ImageTransition.initial d w h f t)) ∧
    (∀ s now, ImageTransition.Inv s →
      ImageTransition.Inv (ImageTransition.enter s now).state) ∧
    (∀ s now, ImageTransition.Inv s →
      ImageTransition.Inv (ImageTransition.leave s now).state) ∧
    (∀ s, ImageTransition.Inv s →
      ImageTransition.Inv (ImageTransition.stop s).1) ∧
    (∀ s, ImageTransition.Inv s →
      ImageTransition.Inv (ImageTransition.reset s).1) ∧
    (∀ s w h, ImageTransition.Inv s →
      ImageTransition.Inv (ImageTransition.setSize s w h).1) ∧
    (∀ s src, ImageTransition.Inv s →
      ImageTransition.Inv (ImageTransition.setFromImage s src).1) ∧
    (∀ s src, ImageTransition.Inv s →
      ImageTransition.Inv (ImageTransition.setToImage s src).1) ∧
    (∀ s, ImageTransition.Inv s →
      ImageTransition.Inv (ImageTransition.render s).state) ∧
    (∀ s r, ImageTransition.Inv s →
      ImageTransition.Inv (ImageTransition.destroy s r)) ∧
    (∀ s a b n, ImageTransition.Inv s →
      ImageTransition.Inv (ImageTransition.enterTick s a b n).state) ∧
    (∀ s a b n, ImageTransition.Inv s →
      ImageTransition.Inv (ImageTransition.leaveTick s a b n).state) := by
  refine ⟨?_, ?_, ?_, ?_, ?_, ?_, ?_, ?_, ?_, ?_, ?_, ?_⟩
  · intro d w h f t
    exact ⟨le_refl 0, zero_le_one, by simp [ImageTransition.initial]⟩
  · intro s now h
    unfold ImageTransition.enter
    split_ifs
    · exact h
    · exact h
    · exact inv_enterTick _ _ _ _ ⟨h.1, h.2.1, by simp⟩
  · intro s now h
    unfold ImageTransition.leave
    split_ifs
    · exact h
    · exact h
    · exact inv_leaveTick _ _ _ _ ⟨h.1, h.2.1, by simp⟩
  · intro s h
    exact inv_stop s h
  · intro s h
    have h1 := inv_stop s h
    exact inv_render _ ⟨le_refl 0, zero_le_one, h1.2.2⟩
  · intro s w h hInv
    exact inv_setSize s w h hInv
  · intro s src h
    exact inv_onUpdate _ ⟨h.1, h.2.1, h.2.2⟩
  · intro s src h
    exact inv_onUpdate _ ⟨h.1, h.2.1, h.2.2⟩
  · intro s h
    exact inv_render s h
  · intro s r h
    unfold ImageTransition.destroy
    split_ifs
    · exact inv_setSize _ _ _ ⟨h.1, h.2.1, by simp⟩
    · exact ⟨h.1, h.2.1, by simp⟩
  · intro s a b n h
    exact inv_enterTick s a b n h
  · intro s a b n h
    exact inv_leaveTick s a b n h

/-- Witness for claim C3: the invariant holds at a concrete idle state and
is preserved there by `enter()`. -/
theorem claim_C3_witness :
    ImageTransition.Inv idleSample ∧
    ImageTransition.Inv (ImageTransition.enter idleSample 0).state :=
  ⟨⟨le_refl 0, zero_le_one, by simp [idleSample]⟩,
    claim_C3_invariants.2.1 idleSample 0
      ⟨le_refl 0, zero_le_one, by simp [idleSample]⟩⟩

/-- Witness for claim C8 at a completed transition. -/
theorem claim_C8_witness :
    (doneSample.isEntering = true ∨ doneSample.progress = 1) ∧
    ImageTransition.enter doneSample 0 =
      ⟨doneSample, false, 0, 0, Option.none, 0, false⟩ :=
  ⟨Or.inr rfl, claim_C8_enter_noop doneSample 0 (Or.inr rfl)⟩

/-- Counterexample for claim C1: in the claimed scenario (`duration = 2000`,
`enter()` at `t0 = 0` from progress 0), the tick at `t0 + 2000` does set
progress to 1, clear the flag and fire exactly one `transitionEnd` — but it
still calls `requestAnimationFrame(tick)`: the call sits after the terminal
branch, unconditionally, so one further tick is scheduled, contradicting
"schedules no further ticks". -/
theorem claim_C1_counterexample :
    (ImageTransition.enterTick (ImageTransition.enter idleSample 0).state 0 0
      2000).state.progress = 1 ∧
    (ImageTransition.enterTick (ImageTransition.enter idleSample 0).state 0 0
      2000).events = 1 ∧
    (ImageTransition.enterTick (ImageTransition.enter idleSample 0).state 0 0
      2000).rescheduled = true := by
  norm_num [idleSample, ImageTransition.enter, ImageTransition.enterTick,
    ImageTransition.render, clamp, max_def, min_def]

/-- Claim C1 (amended): for an `enter()` animation with `duration = 2000`
started at `t0` from progress 0, the tick at `t0 + 1000` sets progress to
`1/2` and pushes the easing of `1/2`, which equals `1/2`; the tick at
`t0 + 2000` sets progress to 1, clears the Entering flag and fires exactly
one `transitionEnd`; in general every tick whose clamped progress reaches
the terminal boundary of the active mode clears the mode flag, emits the
completion notification, and schedules exactly one further frame callback,
which performs no work, emits nothing, and schedules nothing further. -/
theorem claim_C1_amended :
    (∀ (s : ImageTransition) (t0 : ℚ),
      s.duration = 2000 → s.progress = 0 → s.isEntering = false →
      s.destroyed = false →
      (ImageTransition.enter s t0).started = true ∧
      (ImageTransition.enter s t0).state.progress = 0 ∧
      (ImageTransition.enter s t0).startElapsedTime = 0 ∧
      (ImageTransition.enterTick (ImageTransition.enter s t0).state t0 0
        (t0 + 1000)).state.progress = 1/2 ∧
      (ImageTransition.enterTick (ImageTransition.enter s t0).state t0 0
        (t0 + 1000)).pushedProgress = some (1/2) ∧
      (ImageTransition.enterTick (ImageTransition.enter s t0).state t0 0
        (t0 + 1000)).events = 0 ∧
      (ImageTransition.enterTick (ImageTransition.enter s t0).state t0 0
        (t0 + 1000)).rescheduled = true ∧
      (ImageTransition.enterTick
        (ImageTransition.enterTick (ImageTransition.enter s t0).state t0 0
          (t0 + 1000)).state t0 0 (t0 + 2000)).state.progress = 1 ∧
      (ImageTransition.enterTick
        (ImageTransition.enterTick (ImageTransition.enter s t0).state t0 0
          (t0 + 1000)).state t0 0 (t0 + 2000)).state.isEntering = false ∧
      (ImageTransition.enterTick
        (ImageTransition.enterTick (ImageTransition.enter s t0).state t0 0
          (t0 + 1000)).state t0 0 (t0 + 2000)).events = 1 ∧
      (ImageTransition.enterTick
        (ImageTransition.enterTick (ImageTransition.enter s t0).state t0 0
          (t0 + 1000)).state t0 0 (t0 + 2000)).rescheduled = true ∧
      (∀ n, ImageTransition.enterTick
        (ImageTransition.enterTick
          (ImageTransition.enterTick (ImageTransition.enter s t0).state t0 0
            (t0 + 1000)).state t0 0 (t0 + 2000)).state t0 0 n =
        ⟨(ImageTransition.enterTick
          (ImageTransition.enterTick (ImageTransition.enter s t0).state t0 0
            (t0 + 1000)).state t0 0 (t0 + 2000)).state,
          Option.none, 0, false⟩)) ∧
    easeInOutSine (1/2) = 1/2 ∧
    (∀ (s : ImageTransition) (a b n : ℚ),
      s.destroyed = false → s.isEntering = true →
      clamp ((n - a + b) / s.duration) 0 1 = 1 →
      (ImageTransition.enterTick s a b n).state.isEntering = false ∧
      (ImageTransition.enterTick s a b n).events = 1 ∧
      (ImageTransition.enterTick s a b n).rescheduled = true ∧
      (∀ m, ImageTransition.enterTick
        (ImageTransition.enterTick s a b n).state a b m =
        ⟨(ImageTransition.enterTick s a b n).state, Option.none, 0,
          false⟩)) ∧
    (∀ (s : ImageTransition) (a b n : ℚ),
      s.destroyed = false → s.isLeaving = true →
      clamp (1 - (n - a + b) / s.duration) 0 1 = 0 →
      (ImageTransition.leaveTick s a b n).state.isLeaving = false ∧
      (ImageTransition.leaveTick s a b n).events = 1 ∧
      (ImageTransition.leaveTick s a b n).rescheduled = true ∧
      (∀ m, ImageTransition.leaveTick
        (ImageTransition.leaveTick s a b n).state a b m =
        ⟨(ImageTransition.leaveTick s a b n).state, Option.none, 0,
          false⟩)) := by
  refine ⟨?_, ?_, ?_, ?_⟩
  · rintro ⟨dur, p, ie, il, hu, de, cw, ch, f, t⟩ t0 hdur hp hie hde
    simp only at hdur hp hie hde
    subst hdur hp hie hde
    refine ⟨?_, ?_, ?_, ?_, ?_, ?_, ?_, ?_, ?_, ?_, ?_, ?_⟩ <;>
      first
      | (intro n
         refine enterTick_noop _ _ _ _ (Or.inr ?_)
         norm_num [ImageTransition.enter, ImageTransition.enterTick,
           ImageTransition.render, clamp, max_def, min_def])
      | norm_num [ImageTransition.enter, ImageTransition.enterTick,
          ImageTransition.render, clamp, max_def, min_def]
  · unfold easeInOutSine
    rw [show Real.pi * (1/2 : ℝ) = Real.pi/2 by ring, Real.cos_pi_div_two]
    norm_num
  · intro s a b n hde hie hcl
    have hmain : (ImageTransition.enterTick s a b n).state.isEntering =
        false ∧ (ImageTransition.enterTick s a b n).events = 1 ∧
        (ImageTransition.enterTick s a b n).rescheduled = true := by
      unfold ImageTransition.enterTick ImageTransition.render
      simp [hde, hie, hcl]
    exact ⟨hmain.1, hmain.2.1, hmain.2.2,
      fun m => enterTick_noop _ a b m (Or.inr hmain.1)⟩
  · intro s a b n hde hil hcl
    have hmain : (ImageTransition.leaveTick s a b n).state.isLeaving =
        false ∧ (ImageTransition.leaveTick s a b n).events = 1 ∧
        (ImageTransition.leaveTick s a b n).rescheduled = true := by
      unfold ImageTransition.leaveTick ImageTransition.render
      simp [hde, hil, hcl]
    exact ⟨hmain.1, hmain.2.1, hmain.2.2,
      fun m => leaveTick_noop _ a b m (Or.inr hmain.1)⟩

/-- Witness for claim C1 at the concrete idle state and `t0 = 0`. -/
theorem claim_C1_witness :
    (idleSample.duration = 2000 ∧ idleSample.progress = 0 ∧
      idleSample.isEntering = false ∧ idleSample.destroyed = false) ∧
    (ImageTransition.enterTick (ImageTransition.enter idleSample 0).state 0 0
      (0 + 1000)).state.progress = 1/2 ∧
    (ImageTransition.enterTick
      (ImageTransition.enterTick (ImageTransition.enter idleSample 0).state 0
        0 (0 + 1000)).state 0 0 (0 + 2000)).events = 1 := by
  have h := claim_C1_amended.1 idleSample 0 rfl rfl rfl rfl
  exact ⟨⟨rfl, rfl, rfl, rfl⟩, h.2.2.2.1, h.2.2.2.2.2.2.2.2.2.1⟩

/-- Counterexample for claim C9: operations invoked after `destroy()` are
not all no-ops.  `setSize` is not guarded by the destroyed flag: on a
destroyed controller with a 3×3 canvas it still resizes the canvas and
issues viewport/uniform GPU calls; `reset()` still forces progress from
`1/2` to `0`; and the sequence `enter(); stop()` on a destroyed controller
still fires a `transitionEnd` notification. -/
theorem claim_C9_counterexample :
    destroyedSample.destroyed = true ∧
    (ImageTransition.setSize destroyedSample 5 5).2 = true ∧
    (ImageTransition.setSize destroyedSample 5 5).1.canvasWidth = 5 ∧
    destroyedSample.progress = 1/2 ∧
    (ImageTransition.reset destroyedSample).1.progress = 0 ∧
    (ImageTransition.stop
      (ImageTransition.enter destroyedSample 0).state).2 = 1 := by
  norm_num [destroyedSample, ImageTransition.setSize, ImageTransition.onUpdate,
    ImageTransition.reset, ImageTransition.stop, ImageTransition.render,
    ImageTransition.enter, ImageTransition.enterTick]

/-- Claim C9 (amended): `destroy()` sets the destroyed flag and clears both
mode flags; on a destroyed controller `render()` and every scheduled tick
are no-ops (no draw, no state change, no notification), and — from the state
`destroy()` leaves, with both flags cleared — `stop()` is a no-op and
`reset()` fires no notification and issues no draw (though it still zeroes
progress).  The remaining operations (`enter`, `leave`, `setSize`,
`setFromImage`, `setToImage`) are not destroy-guarded and may still mutate
controller state and issue GPU calls. -/
theorem claim_C9_amended :
    (∀ (s : ImageTransition) (r : Bool),
      (ImageTransition.destroy s r).destroyed = true ∧
      (ImageTransition.destroy s r).isEntering = false ∧
      (ImageTransition.destroy s r).isLeaving = false) ∧
    (∀ s : ImageTransition, s.destroyed = true →
      ImageTransition.render s = ⟨s, Option.none⟩ ∧
      (∀ a b n, ImageTransition.enterTick s a b n =
        ⟨s, Option.none, 0, false⟩) ∧
      (∀ a b n, ImageTransition.leaveTick s a b n =
        ⟨s, Option.none, 0, false⟩) ∧
      (s.isEntering = false → s.isLeaving = false →
        ImageTransition.stop s = (s, 0) ∧
        (ImageTransition.reset s).1 = { s with progress := 0 } ∧
        (ImageTransition.reset s).2.1 = 0 ∧
        (ImageTransition.reset s).2.2 = Option.none)) := by
  constructor
  · intro s r
    unfold ImageTransition.destroy ImageTransition.setSize
      ImageTransition.onUpdate
    cases r
    · simp
    · simp only [if_true]
      split_ifs <;> simp
  · intro s hde
    refine ⟨by simp [ImageTransition.render, hde],
      fun a b n => enterTick_noop s a b n (Or.inl hde),
      fun a b n => leaveTick_noop s a b n (Or.inl hde),
      fun h1 h2 => ?_⟩
    have hstop : ImageTransition.stop s = (s, 0) := by
      unfold ImageTransition.stop
      rw [if_pos ⟨h1, h2⟩]
    refine ⟨hstop, ?_, ?_, ?_⟩ <;>
      simp [ImageTransition.reset, hstop, ImageTransition.render, hde]

/-- Witness for claim C9 at a concrete destroyed state. -/
theorem claim_C9_witness :
    destroyedSample.destroyed = true ∧
    ImageTransition.render destroyedSample = ⟨destroyedSample, Option.none⟩ ∧
    ImageTransition.stop destroyedSample = (destroyedSample, 0) ∧
    (ImageTransition.reset destroyedSample).2.1 = 0 :=
  ⟨rfl, (claim_C9_amended.2 destroyedSample rfl).1,
    ((claim_C9_amended.2 destroyedSample rfl).2.2.2 rfl rfl).1,
    ((claim_C9_amended.2 destroyedSample rfl).2.2.2 rfl rfl).2.2.1⟩

/-- Counterexample for claim C10: a `Texture` constructed with a
not-yet-loaded image source (an image element whose `naturalWidth` is still
0) does not upload the 2×2 placeholder canvas; its GPU handle holds the raw
1×1 opaque-black pixel uploaded by the constructor. -/
theorem claim_C10_counterexample :
    (Texture.construct (some (TexSource.imageEl 0 0))).gpu =
      GpuPixels.black1x1 ∧
    GpuPixels.black1x1 ≠ GpuPixels.defaultCanvas2x2 :=
  ⟨rfl, by decide⟩

/-- Claim C10 (amended): the `Texture` constructor first uploads a raw 1×1
opaque-black pixel, so the handle always holds some valid pixel data and is
safe to sample.  A texture constructed without a source then uploads the
fixed 2×2 placeholder canvas; one whose source is already loaded uploads the
source; one whose source is not yet loaded keeps the 1×1 black pixel and
registers a deferred upload-on-load continuation.  `setImage` likewise never
leaves the handle empty and emits exactly one `updated` notification per
call. -/
theorem claim_C10_amended :
    (∀ img, (Texture.construct img).gpu ≠ GpuPixels.empty) ∧
    (Texture.construct Option.none).gpu = GpuPixels.defaultCanvas2x2 ∧
    (∀ w h, w ≠ 0 →
      (Texture.construct (some (TexSource.imageEl w h))).gpu =
        GpuPixels.uploaded (TexSource.imageEl w h)) ∧
    (∀ w h, (Texture.construct (some (TexSource.canvasEl w h))).gpu =
      GpuPixels.uploaded (TexSource.canvasEl w h)) ∧
    (∀ w h, (Texture.construct (some (TexSource.videoEl w h))).gpu =
      GpuPixels.uploaded (TexSource.videoEl w h)) ∧
    (∀ h, (Texture.construct (some (TexSource.imageEl 0 h))).gpu =
      GpuPixels.black1x1 ∧
      (Texture.construct (some (TexSource.imageEl 0 h))).pendingOnLoad =
        true) ∧
    (∀ t img, (Texture.setImage t img).gpu ≠ GpuPixels.empty) ∧
    (∀ t img, (Texture.setImage t img).updatedEvents =
      t.updatedEvents + 1) := by
  refine ⟨?_, rfl, ?_, ?_, ?_, ?_, ?_, ?_⟩
  · rintro (_ | s)
    · simp [Texture.construct, Texture.setImage]
    · cases s <;>
        simp [Texture.construct, Texture.onLoad, Texture.setImage,
          Texture.isLoaded] <;>
        split_ifs <;> simp
  · intro w h hw
    simp [Texture.construct, Texture.onLoad, Texture.setImage,
      Texture.isLoaded, hw]
  · intro w h
    simp [Texture.construct, Texture.onLoad, Texture.setImage,
      Texture.isLoaded]
  · intro w h
    simp [Texture.construct, Texture.onLoad, Texture.setImage,
      Texture.isLoaded]
  · intro h
    simp [Texture.construct, Texture.onLoad, Texture.setImage,
      Texture.isLoaded]
  · rintro t (_ | s)
    · simp [Texture.setImage]
    · simp only [Texture.setImage]
      split_ifs <;> simp
  · rintro t (_ | s)
    · simp [Texture.setImage]
    · simp only [Texture.setImage]
      split_ifs <;> simp

/-- Witness for claim C10 at a concrete loaded image source. -/
theorem claim_C10_witness :
    (4 : ℕ) ≠ 0 ∧
    (Texture.construct (some (TexSource.imageEl 4 3))).gpu =
      GpuPixels.uploaded (TexSource.imageEl 4 3) :=
  ⟨by decide, claim_C10_amended.2.2.1 4 3 (by decide)⟩

/-- A coordinate lies outside the unit box (as the shader tests it) exactly
when it does not lie inside it (as the spec words it). -/
theorem outsideBox_iff (x y : ℝ) :
    (x < 0 ∨ x > 1 ∨ y < 0 ∨ y > 1) ↔
      ¬(0 ≤ x ∧ x ≤ 1 ∧ 0 ≤ y ∧ y ≤ 1) := by
  constructor
  · rintro (h | h | h | h) ⟨a, b, c, d⟩ <;> linarith
  · intro h
    by_contra hc
    push_neg at hc
    exact h hc

/-- Counterexample for claim C4: under an exact-real reading, the fragment
stage does not rotate the displacement sample by `45° + direction`.  The
shader's bias constant is `3.14159265 / 4`, which differs from `π/4`: at a
concrete fragment the two rotations produce different blended outputs. -/
theorem claim_C4_counterexample :
    fragmentMain 2 0 (1/2) 0 0 (fun v => ⟨v.x, 0, 0, 0⟩)
      (fun _ => ⟨0, 0, 0, 0⟩) (fun _ => ⟨1, 0, 0, 0⟩) ⟨0, 0⟩ ≠
    specFragment (Real.pi / 4) 2 0 (1/2) 0 0 (fun v => ⟨v.x, 0, 0, 0⟩)
      (fun _ => ⟨0, 0, 0, 0⟩) (fun _ => ⟨1, 0, 0, 0⟩) ⟨0, 0⟩ := by
  intro h
  have hr := congrArg Vec4.r h
  simp only [fragmentMain, specFragment, mix4, lerp4, rotationMatrix] at hr
  norm_num at hr
  have hA : defaultAngle ∈ Set.Icc (0 : ℝ) Real.pi := by
    have h3 := Real.pi_gt_three
    constructor
    · norm_num [defaultAngle]
    · unfold defaultAngle
      norm_num
      linarith
  have hB : Real.pi / 4 ∈ Set.Icc (0 : ℝ) Real.pi := by
    have h0 := Real.pi_pos
    constructor
    · positivity
    · linarith
  have hr2 : Real.cos defaultAngle = Real.cos (Real.pi / 4) := by
    rw [Real.cos_pi_div_four]
    linarith [hr]
  have heq : defaultAngle = Real.pi / 4 := Real.injOn_cos hA hB hr2
  have h20 := Real.pi_gt_d20
  unfold defaultAngle at heq
  have hpi : (3.14159265 : ℝ) = Real.pi := by linarith
  rw [← hpi] at h20
  norm_num at h20

/-- Claim C4 (amended): for every fragment, the fragment stage behaves
exactly as the spec describes — rotating the displacement sample's red/green
channels, forming `pos1 = uv + offset·intensity·progress` and
`pos2 = uv + offset·intensity·(1 - progress)`, sampling "from" at `pos1` and
"to" at `pos2`, and combining per the three absence cases — except that the
rotation bias is the shader constant `3.14159265/4` radians (the shader
text's approximation of 45°), not exactly `45°`. -/
theorem claim_C4_amended :
    ∀ (intensity direction progress dfi dto : ℝ)
      (tf tt td : Vec2 → Vec4) (uv : Vec2),
      fragmentMain intensity direction progress dfi dto tf tt td uv =
        specFragment defaultAngle intensity direction progress dfi dto tf tt
          td uv := by
  intro i d p dfi dto tf tt td uv
  simp only [fragmentMain, specFragment, mul_assoc, outsideBox_iff, ite_not]
  split_ifs <;>
    first
    | rfl
    | (simp only [mix4, lerp4, Vec4.mk.injEq]
       refine ⟨by ring, by ring, by ring, by ring⟩)
